import Mathlib

/-!
Verification of the Instance Lifecycle Controller of
`src/lithops/standalone/backends/ibm_vpc/ibm_vpc.py` (class
`IBMVPCInstanceClient`).

The Python class is shallowly embedded: each method becomes a Lean
function from an explicit client state and a provider-response oracle to
a result, the state after the call, and a trace of the remote API calls
issued.  Exceptions are modelled with `Except`.  The provider (the
`VpcV1` service object) is modelled as a record of response functions:
since the service object is deterministic within one scenario, every
retry of the same call observes the same response.
-/

namespace IbmVpc

/-- Decidable equality for `Except`, used to evaluate the embedded code
on concrete scenarios. -/
instance {ε α : Type} [DecidableEq ε] [DecidableEq α] : DecidableEq (Except ε α)
  | .ok x, .ok y =>
    if h : x = y then .isTrue (by rw [h])
    else .isFalse (fun hc => h (by injection hc))
  | .error x, .error y =>
    if h : x = y then .isTrue (by rw [h])
    else .isFalse (fun hc => h (by injection hc))
  | .ok _, .error _ => .isFalse (fun hc => Except.noConfusion hc)
  | .error _, .ok _ => .isFalse (fun hc => Except.noConfusion hc)

/-- Exceptions that the embedded code can raise.  `api` stands for any
exception coming out of a remote call; `nameError` models Python's
NameError (a local variable read before any assignment, which in
`create` happens when the try-block reads the loop variable `instance`
on a path where the existence-check loop never ran); `attrError` models
an attribute read on `None`; `vmCreateFailed` is the
`Exception('VM create failed, check logs and configurations')` raised by
`_wait_instance_running`. -/
inductive Err where
  | api (msg : String)
  | nameError
  | attrError
  | vmCreateFailed
  deriving DecidableEq, Repr

/-- The `target` sub-document of a floating-IP document. -/
structure Target where
  id : String
  primary_ipv4_address : String
  deriving DecidableEq, Repr

/-- A floating-IP document as returned by the provider.  `target` is
`none` when the document has no `target` key (unattached IP). -/
structure FloatingIp where
  id : String
  name : String
  address : String
  target : Option Target
  deriving DecidableEq, Repr

/-- A network-interface document.  `floating_ips` is `[]` when the
document has no `floating_ips` key (same observable behaviour as an
empty list in `_delete_instance`). -/
structure NetworkInterface where
  id : String
  primary_ipv4_address : String
  floating_ips : List FloatingIp
  deriving DecidableEq, Repr

/-- An instance document as returned by the provider. -/
structure Instance where
  id : String
  name : String
  status : String
  primary_network_interface : NetworkInterface
  network_interfaces : List NetworkInterface
  deriving DecidableEq, Repr

/-- The mutably shared configuration mapping (`self.config`).  The keys
the controller reads or writes are explicit fields; `rest` stands for
every other key of the mapping, so frame properties can be stated. -/
structure Config where
  instance_id : Option String
  ip_address : Option String
  delete_on_dismantle : Bool
  rest : List (String × String)
  deriving DecidableEq, Repr

/-- The mutable attributes of `IBMVPCInstanceClient` that the lifecycle
methods read or write.  `ssh_client` records whether `self.ssh_client`
is set.  `floating_ip_name` models the attribute `self.floating_ip_name`
read by `_create_and_attach_floating_ip`; it is not initialised in the
shown class, so it is kept as abstract state (the expected floating-IP
name of this client). -/
structure ClientState where
  config : Config
  instance_id : Option String
  ip_address : Option String
  public_vsi : Bool
  ssh_client : Bool
  floating_ip_name : String
  deriving DecidableEq, Repr

/-- Mirror of the relevant part of `IBMVPCInstanceClient.__init__`:
the handle fields are seeded from the configuration mapping, and an SSH
client is built only when the VSI is public and an address is already
known. -/
def initClient (cfg : Config) (public_vsi : Bool) (fip_name : String) : ClientState :=
  { config := cfg
    instance_id := cfg.instance_id
    ip_address := cfg.ip_address
    public_vsi := public_vsi
    ssh_client := public_vsi && cfg.ip_address.isSome
    floating_ip_name := fip_name }

/-- One remote API call, as recorded in a trace.  Identifier arguments
are `Option String` where the Python code passes `self.instance_id`,
which may be `None`. -/
inductive Event where
  | listInstances
  | createInstance (name : String)
  | getInstance (id : Option String)
  | getInstancePoll (t : Nat)
  | instanceAction (id : Option String) (action : String)
  | listFloatingIps
  | createFloatingIp (name : String)
  | attachFloatingIp (instId nicId fipId : String)
  | deleteFloatingIp (fipId : String)
  | deleteInstance (id : Option String)
  | listNics (id : Option String)
  deriving DecidableEq, Repr

/-- The provider-response oracle (the `self.service` collaborator).
Each field gives the deterministic response of one remote API;
`ssh_connect` stands for the construction of the SSH client
(`SSHClient(self.ip_address, self.ssh_credentials)`), which may also
fail. -/
structure Service where
  list_instances : Except Err (List Instance)
  create_instance : String → Except Err Instance
  get_instance : Option String → Except Err Instance
  list_floating_ips : Except Err (List FloatingIp)
  create_floating_ip : String → Except Err FloatingIp
  attach_fip : String → String → String → Except Err Unit
  delete_fip : String → Except Err Unit
  delete_instance : Option String → Except Err Unit
  list_nics : Option String → Except Err (List NetworkInterface)
  instance_action : Option String → String → Except Err Unit
  ssh_connect : Except Err Unit

/-! ## NamingScheme (`_generate_name`, source lines 75-81) -/

/-- Python's `str.find`: index of the first occurrence, `-1` if absent. -/
def charFind : List Char → Char → Int
  | [], _ => -1
  | c :: rest, t =>
    if c = t then 0
    else
      let r := charFind rest t
      if r = -1 then -1 else r + 1

/-- Source lines 77-79: `red_call_id = call_id;
if red_call_id.find('/') > 0: red_call_id = red_call_id[red_call_id.find('/') + 1:]`. -/
def stripSegment (s : List Char) : List Char :=
  let i := charFind s '/'
  if i > 0 then s.drop (i.toNat + 1) else s

/-- Source line 80, the chained string cleanup:
`.replace('/', '-').replace(':', '-').replace('.', '').lower()`. -/
def sanitize (s : List Char) : List Char :=
  ((((s.map (fun c => if c = '/' then '-' else c)).map
      (fun c => if c = ':' then '-' else c)).filter (fun c => c ≠ '.')).map
    Char.toLower)

/-- Method `_generate_name` when both `job_key` and `call_id` are given
(the deterministic branch, source lines 76-80). -/
def _generate_name (r_type job_key call_id : String) : String :=
  String.mk (sanitize
    ("lithops-" ++ job_key ++ "-" ++ String.mk (stripSegment call_id.data)
      ++ "-" ++ r_type).data)

/-- Method `_generate_name` with its optional arguments (source lines 75-81).
`tok` is the value of one draw of `namegenerator.gen()`; it is only used
on the randomized fallback branch, which none of the verified claims
exercise. -/
def _generate_name_full (r_type : String) (job_key call_id : Option String)
    (tok : String) : String :=
  match job_key, call_id with
  | some jk, some ci => _generate_name r_type jk ci
  | some _, none => "lithops-" ++ tok ++ "-" ++ r_type
  | none, _ => "lithops-" ++ tok ++ "-" ++ r_type

/-! ## RetryWrapper (`execution_wrapper`, source lines 83-96)

The loop `while retry_attempt < 15` is embedded structurally with
`fuel = 15 - retry_attempt`.  `func` gives the outcome of the remote
call at each attempt index.  The result carries `none` on the
(unreachable from attempt 0) path where the while-condition fails and
Python returns `None` implicitly; the second component counts how many
times `func` was invoked. -/

def ew_go (func : Nat → Except Err α) : Nat → Nat → Except Err (Option α) × Nat
  | _, 0 => (.ok none, 0)
  | attempt, fuel + 1 =>
    match func attempt with
    | .ok v => (.ok (some v), 1)
    | .error e =>
      if fuel = 0 then (.error e, 1)
      else
        let r := ew_go func (attempt + 1) fuel
        (r.1, r.2 + 1)

/-- Wrapper `execution_wrapper(func, ...)`: start at `retry_attempt = 0` with
`15 - 0` loop iterations available. -/
def execution_wrapper (func : Nat → Except Err α) : Except Err (Option α) × Nat :=
  ew_go func 0 15

/-! ## FloatingIPReconciler (`_create_and_attach_floating_ip`, source lines 139-181) -/

/-- The scan loop of source lines 145-147: `floating_ip` starts as
`None` and is overwritten by every list entry whose name matches, so it
ends as the last match. -/
def lastNamed (nm : String) (l : List FloatingIp) : Option FloatingIp :=
  l.foldl (fun acc vip => if vip.name == nm then some vip else acc) none

/-- The binding check of source lines 167-168: the floating IP has a
`target` whose primary IPv4 address and id both equal those of the
instance's primary network interface. -/
def isBoundTo (fip : FloatingIp) (pni : NetworkInterface) : Bool :=
  match fip.target with
  | some t => t.primary_ipv4_address == pni.primary_ipv4_address && t.id == pni.id
  | none => false

/-- Method `_create_and_attach_floating_ip(instance, ...)` (source lines
139-181): list floating IPs and keep the last one named
`self.floating_ip_name`; allocate one under that name when none exists;
when the found IP is already bound to the instance's primary network
interface, return its address without attaching; otherwise attach it to
`instance['network_interfaces'][0]` (an index error when that list is
empty).  The method mutates no client state. -/
def _create_and_attach_floating_ip (st : ClientState) (svc : Service)
    (inst : Instance) : Except Err String × List Event :=
  match svc.list_floating_ips with
  | .error e => (.error e, [.listFloatingIps])
  | .ok fips =>
    match lastNamed st.floating_ip_name fips with
    | none =>
      match svc.create_floating_ip st.floating_ip_name with
      | .error e => (.error e, [.listFloatingIps, .createFloatingIp st.floating_ip_name])
      | .ok fip =>
        attachPhase svc inst fip [.listFloatingIps, .createFloatingIp st.floating_ip_name]
    | some fip => attachPhase svc inst fip [.listFloatingIps]
where
  /-- Source lines 165-181: skip the attach when already bound, else
  attach to the first network interface. -/
  attachPhase (svc : Service) (inst : Instance) (fip : FloatingIp)
      (tr : List Event) : Except Err String × List Event :=
    if isBoundTo fip inst.primary_network_interface then (.ok fip.address, tr)
    else
      match inst.network_interfaces with
      | [] => (.error .attrError, tr)
      | nic0 :: _ =>
        match svc.attach_fip inst.id nic0.id fip.id with
        | .error e => (.error e, tr ++ [.attachFloatingIp inst.id nic0.id fip.id])
        | .ok _ => (.ok fip.address, tr ++ [.attachFloatingIp inst.id nic0.id fip.id])

/-! ## Deletion (`_delete_instance`, source lines 207-218) -/

/-- The nested loop of source lines 210-214, flattened: the floating IPs
of the network interfaces, in interface order. -/
def allFips : List NetworkInterface → List FloatingIp
  | [] => []
  | nic :: rest => nic.floating_ips ++ allFips rest

/-- Source line 213 iterated: delete each floating IP in turn; a failing
delete propagates immediately (no try around the loop). -/
def deleteFips (svc : Service) : List FloatingIp → Except Err Unit × List Event
  | [] => (.ok (), [])
  | fip :: rest =>
    match svc.delete_fip fip.id with
    | .error e => (.error e, [.deleteFloatingIp fip.id])
    | .ok _ =>
      let r := deleteFips svc rest
      (r.1, .deleteFloatingIp fip.id :: r.2)

/-- Method `_delete_instance` (source lines 207-218): list the instance's
network interfaces, delete every attached floating IP, then delete the
instance. -/
def _delete_instance (st : ClientState) (svc : Service) :
    Except Err Unit × List Event :=
  match svc.list_nics st.instance_id with
  | .error e => (.error e, [.listNics st.instance_id])
  | .ok nics =>
    match deleteFips svc (allFips nics) with
    | (.error e, tr) => (.error e, .listNics st.instance_id :: tr)
    | (.ok _, tr) =>
      match svc.delete_instance st.instance_id with
      | .error e =>
        (.error e, .listNics st.instance_id :: tr ++ [.deleteInstance st.instance_id])
      | .ok _ =>
        (.ok (), .listNics st.instance_id :: tr ++ [.deleteInstance st.instance_id])

/-! ## LifecycleOperations (`start`, `is_ready`, `stop`, source lines 220-296) -/

/-- Method `start` (source lines 220-224): a "start" instance action through
the retry wrapper.  With a deterministic service every attempt repeats
the same call, so the trace is the recorded call replicated once per
attempt. -/
def start (st : ClientState) (svc : Service) :
    Except Err Unit × ClientState × List Event :=
  let r := execution_wrapper (fun _ => svc.instance_action st.instance_id "start")
  (match r.1 with
   | .ok _ => .ok ()
   | .error e => .error e,
   st, List.replicate r.2 (.instanceAction st.instance_id "start"))

/-- Method `is_ready` (source lines 226-230): one status check, true exactly
when the reported status is "running". -/
def is_ready (st : ClientState) (svc : Service) :
    Except Err Bool × ClientState × List Event :=
  match svc.get_instance st.instance_id with
  | .error e => (.error e, st, [.getInstance st.instance_id])
  | .ok inst => (.ok (inst.status == "running"), st, [.getInstance st.instance_id])

/-- Method `stop` (source lines 283-296): with `delete_on_dismantle` set, run
`_delete_instance` inside a try whose except clause only logs — a
failing teardown is swallowed and `stop` returns normally.  Otherwise
issue a "stop" instance action through the retry wrapper. -/
def stop (st : ClientState) (svc : Service) :
    Except Err Unit × ClientState × List Event :=
  if st.config.delete_on_dismantle then
    match _delete_instance st svc with
    | (.ok _, tr) => (.ok (), st, tr)
    | (.error _, tr) => (.ok (), st, tr)
  else
    let r := execution_wrapper (fun _ => svc.instance_action st.instance_id "stop")
    (match r.1 with
     | .ok _ => .ok ()
     | .error e => .error e,
     st, List.replicate r.2 (.instanceAction st.instance_id "stop"))

/-! ## ReadinessPoller (`_wait_instance_running`, source lines 183-197)

Polling takes one second per iteration (the `time.sleep(1)`), so the
status reported by the provider is a function of the poll index, and the
while-condition `time.time() - start < vm_create_timeout` is embedded
structurally with `fuel = timeout - t`. -/

def wait_go (st : ClientState) (svc : Service) (statuses : Nat → String) :
    Nat → Nat → Except Err Bool × ClientState × List Event
  | _, 0 =>
    match stop st svc with
    | (.ok _, _, tr) => (.error .vmCreateFailed, st, tr)
    | (.error e, _, tr) => (.error e, st, tr)
  | t, fuel + 1 =>
    if statuses t = "running" then (.ok true, st, [.getInstancePoll t])
    else
      let r := wait_go st svc statuses (t + 1) fuel
      (r.1, r.2.1, .getInstancePoll t :: r.2.2)

/-- Method `_wait_instance_running` (source lines 183-197): poll once per
second until the status is "running"; on timeout call `self.stop()` and
raise the provisioning-failed exception. -/
def _wait_instance_running (st : ClientState) (svc : Service)
    (statuses : Nat → String) (timeout : Nat) :
    Except Err Bool × ClientState × List Event :=
  wait_go st svc statuses 0 timeout

/-! ## InstanceProvisioner (`create`, source lines 232-281)

`create` is split along its phases; each piece carries the client state
and the accumulated trace.  The `instance` local variable of the Python
method is threaded as an `Option Instance`: `none` when it was never
assigned (reading it then raises a NameError inside the try-block, which
the except clause catches like any other exception). -/

/-- Source lines 273-275: build the SSH client when none is set.  The
construction (`SSHClient(...)`) is the `ssh_connect` response of the
oracle. -/
def sshPhase (st : ClientState) (svc : Service) (tr : List Event) :
    Except Err Unit × ClientState × List Event :=
  if !st.ssh_client then
    match svc.ssh_connect with
    | .error e => (.error e, st, tr)
    | .ok _ => (.ok (), { st with ssh_client := true }, tr)
  else (.ok (), st, tr)

/-- The body of the try-block, source lines 267-275: when the VSI is
public and no address is known yet, reconcile a floating IP onto the
instance and write the address back into the shared configuration, then
ensure an SSH client exists. -/
def publicPhase (st : ClientState) (svc : Service) (inst? : Option Instance) :
    Except Err Unit × ClientState × List Event :=
  if st.public_vsi then
    if st.ip_address.isNone then
      match inst? with
      | none => (.error .nameError, st, [])
      | some inst =>
        match _create_and_attach_floating_ip st svc inst with
        | (.error e, tr) => (.error e, st, tr)
        | (.ok addr, tr) =>
          sshPhase
            { st with
              config := { st.config with ip_address := some addr },
              ip_address := some addr } svc tr
    else sshPhase st svc []
  else (.ok (), st, [])

/-- Source lines 266-281: run the public phase; on any exception there,
call `_delete_instance` and re-raise (an exception out of
`_delete_instance` itself propagates instead); on success return
`(self.instance_id, self.ip_address)`. -/
def createFinish (st : ClientState) (svc : Service) (inst? : Option Instance)
    (tr0 : List Event) :
    Except Err (Option String × Option String) × ClientState × List Event :=
  match publicPhase st svc inst? with
  | (.ok _, st1, tr) => (.ok (st1.instance_id, st1.ip_address), st1, tr0 ++ tr)
  | (.error e, st1, tr) =>
    match _delete_instance st1 svc with
    | (.ok _, dtr) => (.error e, st1, tr0 ++ tr ++ dtr)
    | (.error e2, dtr) => (.error e2, st1, tr0 ++ tr ++ dtr)

/-- Source lines 256-264 followed by the try-block: when no VSI exists
yet, create one through the retry wrapper (`_create_instance`, whose
prototype carries the derived instance name), record its id in the
handle and in the shared configuration.  `.ok none` is the retry
wrapper's implicit-None fall-through, on which reading
`response.result` would fail. -/
def provisionPhase (st : ClientState) (svc : Service)
    (job_key call_id : Option String) (tok : String) (vsi_exists : Bool)
    (inst? : Option Instance) (tr0 : List Event) :
    Except Err (Option String × Option String) × ClientState × List Event :=
  if !vsi_exists then
    let nm := _generate_name_full "instance" job_key call_id tok
    let r := execution_wrapper (fun _ => svc.create_instance nm)
    let trc := List.replicate r.2 (Event.createInstance nm)
    match r.1 with
    | .error e => (.error e, st, tr0 ++ trc)
    | .ok none => (.error .attrError, st, tr0 ++ trc)
    | .ok (some inst) =>
      createFinish
        { st with
          instance_id := some inst.id,
          config := { st.config with instance_id := some inst.id } }
        svc (some inst) (tr0 ++ trc)
  else createFinish st svc inst? tr0

/-- The existence-check loop of source lines 250-254: `self.instance_id`
is overwritten by every listed instance whose name matches, so it ends
as the id of the last match; any match sets `vsi_exists`. -/
def scanInstances (nm : String) (l : List Instance) : Option Instance :=
  l.foldl (fun acc inst => if inst.name == nm then some inst else acc) none

/-- Method `create` (source lines 232-281).  `vsi_exists` starts as the
truthiness of `self.instance_id`; with `check_if_vsi_exists` the
provider listing is scanned for the derived name (a failure of the
listing is re-raised).  After the loop the Python local `instance` holds
the last listed instance when the loop ran at least once, and is unbound
otherwise. -/
def create (st : ClientState) (svc : Service) (job_key call_id : Option String)
    (tok : String) (check_if_vsi_exists : Bool) :
    Except Err (Option String × Option String) × ClientState × List Event :=
  if check_if_vsi_exists then
    match svc.list_instances with
    | .error e => (.error e, st, [.listInstances])
    | .ok insts =>
      let nm := _generate_name_full "instance" job_key call_id tok
      let vsi_exists := st.instance_id.isSome || (scanInstances nm insts).isSome
      let st1 :=
        match scanInstances nm insts with
        | some m => { st with instance_id := some m.id }
        | none => st
      provisionPhase st1 svc job_key call_id tok vsi_exists insts.getLast?
        [.listInstances]
  else
    provisionPhase st svc job_key call_id tok st.instance_id.isSome none []

/-- Teardown calls in a trace: instance deletions and "stop" instance
actions. -/
def teardownCount (tr : List Event) : Nat :=
  tr.countP (fun e =>
    match e with
    | .deleteInstance _ => true
    | .instanceAction _ a => a == "stop"
    | _ => false)

example : _generate_name "instance" "J1" "M007/A" = "lithops-j1-a-instance" := by decide
example : _generate_name "instance" "j1" "a.b" = "lithops-j1-ab-instance" := by decide
example : execution_wrapper (fun _ => (.error (.api "x") : Except Err Nat)) =
    (.error (.api "x"), 15) := by decide
example : execution_wrapper (fun n => if n < 14 then (.error (.api "x") : Except Err Nat)
    else .ok 7) = (.ok (some 7), 15) := by decide

/-! ## Helper lemmas about the retry wrapper -/

theorem ew_go_count_le (func : Nat → Except Err α) :
    ∀ fuel attempt, (ew_go func attempt fuel).2 ≤ fuel := by
  intro fuel
  induction fuel with
  | zero => intro attempt; simp [ew_go]
  | succ f ih =>
    intro attempt
    simp only [ew_go]
    cases func attempt with
    | ok v => simp
    | error e =>
      by_cases hf : f = 0
      · simp [hf]
      · simp only [hf, if_false]
        exact Nat.succ_le_succ (ih (attempt + 1))

theorem ew_go_count_pos (func : Nat → Except Err α) :
    ∀ fuel attempt, fuel ≠ 0 → 1 ≤ (ew_go func attempt fuel).2 := by
  intro fuel attempt hf
  match fuel, hf with
  | f + 1, _ =>
    simp only [ew_go]
    cases func attempt with
    | ok v => simp
    | error e =>
      by_cases h0 : f = 0
      · simp [h0]
      · simp only [h0, if_false]; omega

theorem ew_go_all_fail (func : Nat → Except Err α) :
    ∀ fuel attempt e, fuel ≠ 0 →
      (∀ j, attempt ≤ j → j < attempt + fuel → ∃ e2, func j = .error e2) →
      func (attempt + fuel - 1) = .error e →
      ew_go func attempt fuel = (.error e, fuel) := by
  intro fuel
  induction fuel with
  | zero => intro attempt e h; exact absurd rfl h
  | succ f ih =>
    intro attempt e _ hall hlast
    obtain ⟨e2, he2⟩ := hall attempt (Nat.le_refl _) (by omega)
    simp only [ew_go, he2]
    by_cases hf : f = 0
    · subst hf
      have : attempt + 1 - 1 = attempt := by omega
      rw [this] at hlast
      rw [hlast] at he2
      simp only [if_true, eq_self_iff_true]
      injection he2 with h2
      simp [h2]
    · simp only [hf, if_false]
      have hrec := ih (attempt + 1) e hf
        (fun j hj1 hj2 => hall j (by omega) (by omega))
        (by
          have : attempt + 1 + f - 1 = attempt + (f + 1) - 1 := by omega
          rw [this]; exact hlast)
      rw [hrec]

theorem ew_go_first_ok (func : Nat → Except Err α) :
    ∀ fuel attempt k v, attempt ≤ k → k < attempt + fuel →
      func k = .ok v →
      (∀ j, attempt ≤ j → j < k → ∃ e, func j = .error e) →
      ew_go func attempt fuel = (.ok (some v), k - attempt + 1) := by
  intro fuel
  induction fuel with
  | zero => intro attempt k v h1 h2; omega
  | succ f ih =>
    intro attempt k v hk1 hk2 hok hbefore
    by_cases hk : k = attempt
    · subst hk
      simp [ew_go, hok]
    · obtain ⟨e, he⟩ := hbefore attempt (Nat.le_refl _) (by omega)
      simp only [ew_go, he]
      have hf : f ≠ 0 := by omega
      simp only [hf, if_false]
      have hrec := ih (attempt + 1) k v (by omega) (by omega) hok
        (fun j hj1 hj2 => hbefore j (by omega) hj2)
      rw [hrec]
      have : k - (attempt + 1) + 1 + 1 = k - attempt + 1 := by omega
      simp [this]

/-- Evaluation of the retry wrapper on an operation that always
succeeds (remote call responds the same at every attempt). -/
theorem execution_wrapper_const_ok (v : α) :
    execution_wrapper (fun _ : Nat => (.ok v : Except Err α)) = (.ok (some v), 1) := by
  have := ew_go_first_ok (fun _ : Nat => (.ok v : Except Err α)) 15 0 0 v
    (Nat.le_refl _) (by omega) rfl (fun j h1 h2 => by omega)
  simpa [execution_wrapper] using this

/-- Evaluation of the retry wrapper on an operation that always
fails. -/
theorem execution_wrapper_const_error (e : Err) :
    execution_wrapper (fun _ : Nat => (.error e : Except Err α)) = (.error e, 15) := by
  have := ew_go_all_fail (fun _ : Nat => (.error e : Except Err α)) 15 0 e
    (by omega) (fun j h1 h2 => ⟨e, rfl⟩) rfl
  simpa [execution_wrapper] using this

/-- Claim C2: `execution_wrapper` invokes the wrapped operation at most
15 times; when the attempts up to some successful one (strictly before
the 16th) all raise, the successful attempt's result is returned with
exactly that many invocations observed; when all 15 attempts raise,
exactly 15 invocations are observed and the exception of the final
(15th) attempt — attempt index 14 — is re-raised. -/
theorem execution_wrapper_bounded_retry (func : Nat → Except Err α) :
    (execution_wrapper func).2 ≤ 15 ∧
    (∀ k v, k < 15 → func k = .ok v → (∀ j, j < k → ∃ e, func j = .error e) →
      execution_wrapper func = (.ok (some v), k + 1)) ∧
    (∀ e, func 14 = .error e → (∀ j, j < 15 → ∃ e2, func j = .error e2) →
      execution_wrapper func = (.error e, 15)) := by
  refine ⟨ew_go_count_le func 15 0, ?_, ?_⟩
  · intro k v hk hok hbefore
    have := ew_go_first_ok func 15 0 k v (Nat.zero_le _) (by omega) hok
      (fun j _ hj => hbefore j hj)
    simpa [execution_wrapper] using this
  · intro e hlast hall
    have := ew_go_all_fail func 15 0 e (by omega)
      (fun j _ hj => hall j (by omega)) (by simpa using hlast)
    simpa [execution_wrapper] using this

/-- Witness for C2: a stub failing all 15 attempts propagates the final
exception after exactly 15 observed invocations. -/
theorem execution_wrapper_bounded_retry_witness :
    execution_wrapper (fun _ : Nat => (.error (.api "boom") : Except Err Nat)) =
      (.error (.api "boom"), 15) :=
  (execution_wrapper_bounded_retry _).2.2 (.api "boom") rfl
    (fun _ _ => ⟨.api "boom", rfl⟩)

/-! ## Claim C6: the naming rule -/

/-- The cleanup step exactly as claim C6 words it: every '/', ':' and
'.' replaced by '-', then lower-cased. -/
def sanitize_spec (s : List Char) : List Char :=
  (s.map (fun c => if c = '/' then '-' else if c = ':' then '-'
    else if c = '.' then '-' else c)).map Char.toLower

/-- The full naming rule as claim C6 states it (strip the routing
segment, compose, replace the three characters by '-', lower-case). -/
def generate_name_spec (r_type job_key call_id : String) : String :=
  String.mk (sanitize_spec
    ("lithops-" ++ job_key ++ "-" ++ String.mk (stripSegment call_id.data)
      ++ "-" ++ r_type).data)

/-- Claim C6 counterexample: on `callId = "a.b"` the code removes the
dot (`replace('.', '')`) instead of replacing it with '-', so the code
result "lithops-j1-ab-instance" differs from the claim's
"lithops-j1-a-b-instance". -/
theorem generate_name_dot_counterexample :
    _generate_name "instance" "j1" "a.b" ≠ generate_name_spec "instance" "j1" "a.b" := by
  decide

/-- The cleanup step as amended: '.' is removed outright, '/', ':'
become '-', everything is lower-cased. -/
def sanitize_amended (s : List Char) : List Char :=
  (s.filter (fun c => c ≠ '.')).map
    (fun c => if c = '/' then '-' else if c = ':' then '-' else Char.toLower c)

/-- The naming rule as amended by the counterexample. -/
def generate_name_amended (r_type job_key call_id : String) : String :=
  String.mk (sanitize_amended
    ("lithops-" ++ job_key ++ "-" ++ String.mk (stripSegment call_id.data)
      ++ "-" ++ r_type).data)

theorem sanitize_eq_amended (s : List Char) : sanitize s = sanitize_amended s := by
  induction s with
  | nil => rfl
  | cons c rest ih =>
    simp only [sanitize, sanitize_amended, List.map_cons, List.filter_cons] at ih ⊢
    by_cases h1 : c = '/'
    · subst h1; simpa using ih
    · by_cases h2 : c = ':'
      · subst h2; simpa using ih
      · by_cases h3 : c = '.'
        · subst h3; simpa [h1, h2] using ih
        · simp only [h1, h2, h3, if_false, if_neg, decide_not]
          simpa [h1, h2, h3] using ih

/-- Claim C6 (amended): with both `jobKey` and `callId` present,
`_generate_name` strips the "/"-prefixed routing segment from `callId`
(only when the '/' is not the leading character), composes
"lithops-jobKey-callId-resourceKind", replaces every '/' and ':' with
'-', removes every '.', and lower-cases; the function is pure, so the
name is identical across repeated calls with the same arguments. -/
theorem generate_name_amended_correct (r_type job_key call_id : String) :
    _generate_name r_type job_key call_id =
      generate_name_amended r_type job_key call_id := by
  unfold _generate_name generate_name_amended
  rw [sanitize_eq_amended]

/-! ## Claim C4: floating-IP idempotence -/

/-- Helper: in the already-bound situation the reconciler's only remote
call is the listing. -/
theorem fip_bound_eq (st : ClientState) (svc : Service) (inst : Instance)
    (fips : List FloatingIp) (fip : FloatingIp)
    (hl : svc.list_floating_ips = .ok fips)
    (hfind : lastNamed st.floating_ip_name fips = some fip)
    (hbound : isBoundTo fip inst.primary_network_interface = true) :
    _create_and_attach_floating_ip st svc inst = (.ok fip.address, [.listFloatingIps]) := by
  simp only [_create_and_attach_floating_ip, hl, hfind,
    _create_and_attach_floating_ip.attachPhase, hbound, if_true]

/-- Claim C4: when the floating-IP listing's entry under the expected
name (the one the scan loop retains) is already bound to the instance's
primary network interface — matching both target id and primary IPv4
address — `_create_and_attach_floating_ip` returns the existing address
with the listing as its only remote call: no attach (and no allocation)
is issued.  The method mutates no client state and the oracle is
deterministic, so a repeated call is the same application of the same
function and again performs zero attach calls. -/
theorem fip_already_bound (st : ClientState) (svc : Service) (inst : Instance)
    (fips : List FloatingIp) (fip : FloatingIp)
    (hl : svc.list_floating_ips = .ok fips)
    (hfind : lastNamed st.floating_ip_name fips = some fip)
    (hbound : isBoundTo fip inst.primary_network_interface = true) :
    _create_and_attach_floating_ip st svc inst = (.ok fip.address, [.listFloatingIps]) ∧
    (∀ a b c, Event.attachFloatingIp a b c ∉
      (_create_and_attach_floating_ip st svc inst).2) := by
  have heq := fip_bound_eq st svc inst fips fip hl hfind hbound
  refine ⟨heq, ?_⟩
  intro a b c
  rw [heq]
  simp

/-! ## Claims C5 and C7: the dismantle policy of `stop` -/

theorem deleteFips_all_ok (svc : Service) (hdf : ∀ f, svc.delete_fip f = .ok ()) :
    ∀ l, deleteFips svc l = (.ok (), l.map (fun f => Event.deleteFloatingIp f.id)) := by
  intro l
  induction l with
  | nil => rfl
  | cons f rest ih => simp [deleteFips, hdf f.id, ih]

/-- Successful full teardown: `_delete_instance` lists the interfaces,
deletes every attached floating IP in order, then deletes the
instance. -/
theorem delete_instance_all_ok (st : ClientState) (svc : Service)
    (nics : List NetworkInterface)
    (hn : svc.list_nics st.instance_id = .ok nics)
    (hdf : ∀ f, svc.delete_fip f = .ok ())
    (hdi : svc.delete_instance st.instance_id = .ok ()) :
    _delete_instance st svc = (.ok (), .listNics st.instance_id ::
      ((allFips nics).map (fun f => Event.deleteFloatingIp f.id) ++
        [.deleteInstance st.instance_id])) := by
  simp only [_delete_instance, hn, deleteFips_all_ok svc hdf, hdi]
  simp

/-- Behaviour of `stop` under the dismantle policy with a successful teardown. -/
theorem stop_dismantle_eq (st : ClientState) (svc : Service)
    (nics : List NetworkInterface)
    (hd : st.config.delete_on_dismantle = true)
    (hn : svc.list_nics st.instance_id = .ok nics)
    (hdf : ∀ f, svc.delete_fip f = .ok ())
    (hdi : svc.delete_instance st.instance_id = .ok ()) :
    stop st svc = (.ok (), st, .listNics st.instance_id ::
      ((allFips nics).map (fun f => Event.deleteFloatingIp f.id) ++
        [.deleteInstance st.instance_id])) := by
  unfold stop
  rw [hd, delete_instance_all_ok st svc nics hn hdf hdi]
  simp

/-- Claim C5: with `delete_on_dismantle` set, `stop` deletes every
floating IP attached to any network interface of the instance and then
deletes the instance, in that order; with the flag unset it issues a
"stop" instance action and (unconditionally) no floating-IP or instance
deletion calls. -/
theorem stop_dismantle_policy (st : ClientState) (svc : Service)
    (nics : List NetworkInterface)
    (hn : svc.list_nics st.instance_id = .ok nics)
    (hdf : ∀ f, svc.delete_fip f = .ok ())
    (hdi : svc.delete_instance st.instance_id = .ok ()) :
    (st.config.delete_on_dismantle = true →
      stop st svc = (.ok (), st, .listNics st.instance_id ::
        ((allFips nics).map (fun f => Event.deleteFloatingIp f.id) ++
          [.deleteInstance st.instance_id]))) ∧
    (st.config.delete_on_dismantle = false →
      (svc.instance_action st.instance_id "stop" = .ok () →
        stop st svc = (.ok (), st, [.instanceAction st.instance_id "stop"])) ∧
      (∀ e, e ∈ (stop st svc).2.2 →
        (∀ f, e ≠ Event.deleteFloatingIp f) ∧ (∀ i, e ≠ Event.deleteInstance i))) := by
  constructor
  · intro hd
    exact stop_dismantle_eq st svc nics hd hn hdf hdi
  · intro hd
    constructor
    · intro ha
      unfold stop
      rw [hd]
      simp only [Bool.false_eq_true, if_false, ha]
      rw [execution_wrapper_const_ok]
      simp
    · intro e he
      unfold stop at he
      rw [hd] at he
      simp only [Bool.false_eq_true, if_false] at he
      have := List.eq_of_mem_replicate he
      subst this
      constructor
      · intro f h
        exact Event.noConfusion h
      · intro i h
        exact Event.noConfusion h

/-! Fixtures used by concrete scenarios.  `svcDefault` responds with an
error everywhere; scenarios override the calls they exercise. -/

def svcDefault : Service :=
  { list_instances := .error (.api "unused")
    create_instance := fun _ => .error (.api "unused")
    get_instance := fun _ => .error (.api "unused")
    list_floating_ips := .error (.api "unused")
    create_floating_ip := fun _ => .error (.api "unused")
    attach_fip := fun _ _ _ => .error (.api "unused")
    delete_fip := fun _ => .error (.api "unused")
    delete_instance := fun _ => .error (.api "unused")
    list_nics := fun _ => .error (.api "unused")
    instance_action := fun _ _ => .error (.api "unused")
    ssh_connect := .error (.api "unused") }

def cfgDefault : Config :=
  { instance_id := none
    ip_address := none
    delete_on_dismantle := false
    rest := [("region", "us-south")] }

def stDefault : ClientState := initClient cfgDefault false "lithops-fip"

def nicBound : NetworkInterface :=
  { id := "nic-1", primary_ipv4_address := "10.0.0.1", floating_ips := [] }

def instBound : Instance :=
  { id := "i-1", name := "lithops-j1-c1-instance", status := "running"
    primary_network_interface := nicBound, network_interfaces := [nicBound] }

def fipBound : FloatingIp :=
  { id := "fip-1", name := "lithops-fip", address := "52.0.0.9"
    target := some { id := "nic-1", primary_ipv4_address := "10.0.0.1" } }

def svcFipBound : Service :=
  { svcDefault with list_floating_ips := .ok [fipBound] }

/-- Witness for C4: on a concrete already-bound instance the reconciler
returns the existing address and its trace is just the listing. -/
theorem fip_already_bound_witness :
    lastNamed stDefault.floating_ip_name [fipBound] = some fipBound ∧
    _create_and_attach_floating_ip stDefault svcFipBound instBound =
      (.ok "52.0.0.9", [.listFloatingIps]) :=
  ⟨by decide,
   (fip_already_bound stDefault svcFipBound instBound [fipBound] fipBound rfl
      (by decide) (by decide)).1⟩

def nicWithFips : NetworkInterface :=
  { id := "nic-2", primary_ipv4_address := "10.0.0.2"
    floating_ips := [{ id := "fip-a", name := "n-a", address := "52.0.0.1", target := none },
                     { id := "fip-b", name := "n-b", address := "52.0.0.2", target := none }] }

def stDismantle : ClientState :=
  { stDefault with
    config := { cfgDefault with delete_on_dismantle := true }
    instance_id := some "i-9" }

def svcDismantle : Service :=
  { svcDefault with
    list_nics := fun _ => .ok [nicWithFips]
    delete_fip := fun _ => .ok ()
    delete_instance := fun _ => .ok () }

/-- Witness for C5: a concrete dismantle deletes the two attached
floating IPs and then the instance, in that order. -/
theorem stop_dismantle_policy_witness :
    stDismantle.config.delete_on_dismantle = true ∧
    stop stDismantle svcDismantle = (.ok (), stDismantle,
      [.listNics (some "i-9"), .deleteFloatingIp "fip-a", .deleteFloatingIp "fip-b",
       .deleteInstance (some "i-9")]) :=
  ⟨rfl,
   (stop_dismantle_policy stDismantle svcDismantle [nicWithFips] rfl
      (fun _ => rfl) rfl).1 rfl⟩

/-- A teardown whose very first remote call fails. -/
def svcStopFail : Service :=
  { svcDefault with list_nics := fun _ => .error (.api "boom") }

/-- Claim C7 counterexample: with `delete_on_dismantle` set and a
failing teardown (`list_instance_network_interfaces` raises),
`_delete_instance` raises, yet `stop` catches the exception, only logs
it, and returns normally — the failure is not re-raised to the caller
of `stop`. -/
theorem stop_swallows_teardown_failure :
    (_delete_instance stDismantle svcStopFail).1 = .error (.api "boom") ∧
    stop stDismantle svcStopFail = (.ok (), stDismantle, [.listNics (some "i-9")]) := by
  decide

/-- Claim C7 (amended): with `delete_on_dismantle` set, a failure of
any remote call during `stop`'s teardown is logged and swallowed —
`stop` returns normally whatever the teardown did, so the exception is
never re-raised to the caller. -/
theorem stop_dismantle_never_raises (st : ClientState) (svc : Service)
    (hd : st.config.delete_on_dismantle = true) :
    (stop st svc).1 = .ok () := by
  unfold stop
  rw [hd]
  simp only [if_true]
  rcases h : _delete_instance st svc with ⟨r, tr⟩
  cases r <;> simp

/-- Witness for the amended C7: the failing concrete teardown still
yields a normal return. -/
theorem stop_dismantle_never_raises_witness :
    (stop stDismantle svcStopFail).1 = .ok () :=
  stop_dismantle_never_raises stDismantle svcStopFail rfl

/-! ## Claim C3: timeout rollback of the readiness poller -/

theorem wait_go_state (st : ClientState) (svc : Service) (statuses : Nat → String) :
    ∀ fuel t, (wait_go st svc statuses t fuel).2.1 = st := by
  intro fuel
  induction fuel with
  | zero =>
    intro t
    simp only [wait_go]
    rcases h : stop st svc with ⟨r, st2, tr⟩
    cases r <;> simp
  | succ f ih =>
    intro t
    simp only [wait_go]
    by_cases h : statuses t = "running"
    · simp [h]
    · simp [h, ih (t + 1)]

theorem range_map_poll_succ (t f : Nat) :
    Event.getInstancePoll t ::
      (List.range f).map (fun k => Event.getInstancePoll (t + 1 + k)) =
    (List.range (f + 1)).map (fun k => Event.getInstancePoll (t + k)) := by
  rw [List.range_succ_eq_map, List.map_cons, List.map_map]
  simp only [Nat.add_zero]
  congr 1
  apply List.map_congr_left
  intro a _
  have h : t + 1 + a = t + Nat.succ a := by omega
  simp [Function.comp, h]

theorem wait_go_never_running (st : ClientState) (svc : Service)
    (statuses : Nat → String) (str : List Event)
    (hstop : stop st svc = (.ok (), st, str)) :
    ∀ fuel t, (∀ s, t ≤ s → s < t + fuel → statuses s ≠ "running") →
      wait_go st svc statuses t fuel =
        (.error .vmCreateFailed, st,
          (List.range fuel).map (fun k => Event.getInstancePoll (t + k)) ++ str) := by
  intro fuel
  induction fuel with
  | zero =>
    intro t _
    simp [wait_go, hstop]
  | succ f ih =>
    intro t h
    have hne : statuses t ≠ "running" := h t (Nat.le_refl _) (by omega)
    simp only [wait_go, hne, if_false]
    rw [ih (t + 1) (fun s h1 h2 => h s (by omega) (by omega))]
    simp only [← range_map_poll_succ t f]
    simp

theorem wait_go_first_running (st : ClientState) (svc : Service)
    (statuses : Nat → String) :
    ∀ fuel t t0, t ≤ t0 → t0 < t + fuel → statuses t0 = "running" →
      (∀ s, t ≤ s → s < t0 → statuses s ≠ "running") →
      wait_go st svc statuses t fuel =
        (.ok true, st,
          (List.range (t0 - t + 1)).map (fun k => Event.getInstancePoll (t + k))) := by
  intro fuel
  induction fuel with
  | zero => intro t t0 h1 h2; omega
  | succ f ih =>
    intro t t0 h1 h2 hrun hbefore
    by_cases ht : t0 = t
    · subst ht
      simp [wait_go, hrun, List.range_succ]
    · have hne : statuses t ≠ "running" := hbefore t (Nat.le_refl _) (by omega)
      simp only [wait_go, hne, if_false]
      rw [ih (t + 1) t0 (by omega) (by omega) hrun
        (fun s hs1 hs2 => hbefore s (by omega) hs2)]
      have harith : t0 - (t + 1) + 1 = t0 - t := by omega
      rw [harith]
      have hc := range_map_poll_succ t (t0 - t)
      simp only [← hc]

theorem teardownCount_polls (l : List Nat) :
    teardownCount (l.map (fun k => Event.getInstancePoll k)) = 0 := by
  induction l with
  | nil => rfl
  | cons a rest ih => simpa [teardownCount, List.countP_cons] using ih

theorem teardownCount_fips (l : List FloatingIp) :
    teardownCount (l.map (fun f => Event.deleteFloatingIp f.id)) = 0 := by
  induction l with
  | nil => rfl
  | cons a rest ih => simpa [teardownCount, List.countP_cons] using ih

/-- Claim C3: when the reported status never equals "running" within
the timeout, `_wait_instance_running` performs its polls, invokes
teardown (`self.stop()`) exactly once — observable as exactly one
teardown call in the trace, which is the polls followed by one `stop`
trace — and only then raises the provisioning-failed error; when some
poll before the timeout observes "running", it returns `true` after
the polls up to that moment and performs no teardown. -/
theorem wait_timeout_rollback (st : ClientState) (svc : Service)
    (statuses : Nat → String) (timeout : Nat) (nics : List NetworkInterface)
    (hd : st.config.delete_on_dismantle = true)
    (hn : svc.list_nics st.instance_id = .ok nics)
    (hdf : ∀ f, svc.delete_fip f = .ok ())
    (hdi : svc.delete_instance st.instance_id = .ok ()) :
    ((∀ t, t < timeout → statuses t ≠ "running") →
      _wait_instance_running st svc statuses timeout =
        (.error .vmCreateFailed, st,
          (List.range timeout).map (fun k => Event.getInstancePoll k) ++
            (stop st svc).2.2) ∧
      teardownCount (_wait_instance_running st svc statuses timeout).2.2 = 1) ∧
    (∀ t, t < timeout → statuses t = "running" →
      (∀ s, s < t → statuses s ≠ "running") →
      _wait_instance_running st svc statuses timeout =
        (.ok true, st, (List.range (t + 1)).map (fun k => Event.getInstancePoll k)) ∧
      teardownCount (_wait_instance_running st svc statuses timeout).2.2 = 0) := by
  have hstop := stop_dismantle_eq st svc nics hd hn hdf hdi
  constructor
  · intro hnever
    have heq := wait_go_never_running st svc statuses _ hstop timeout 0
      (fun s _ hs => hnever s (by omega))
    have heq2 : _wait_instance_running st svc statuses timeout =
        (.error .vmCreateFailed, st,
          (List.range timeout).map (fun k => Event.getInstancePoll k) ++
            (stop st svc).2.2) := by
      rw [_wait_instance_running, heq, hstop]
      simp
    refine ⟨heq2, ?_⟩
    rw [heq2]
    simp only [hstop]
    simp only [teardownCount, List.countP_append, List.countP_cons]
    have h1 := teardownCount_polls (List.range timeout)
    have h2 := teardownCount_fips (allFips nics)
    simp only [teardownCount] at h1 h2
    simp [h1, h2]
  · intro t ht hrun hbefore
    have heq := wait_go_first_running st svc statuses timeout 0 t (Nat.zero_le _)
      (by omega) hrun (fun s _ hs => hbefore s hs)
    have heq2 : _wait_instance_running st svc statuses timeout =
        (.ok true, st, (List.range (t + 1)).map (fun k => Event.getInstancePoll k)) := by
      rw [_wait_instance_running, heq]
      simp
    refine ⟨heq2, ?_⟩
    rw [heq2]
    exact teardownCount_polls (List.range (t + 1))

/-- Witness for C3: with a two-second timeout and a status that stays
"starting", the poller polls twice, tears down once and raises; had the
first poll seen "running", no teardown call would appear. -/
theorem wait_timeout_rollback_witness :
    _wait_instance_running stDismantle svcDismantle (fun _ => "starting") 2 =
      (.error .vmCreateFailed, stDismantle,
        [.getInstancePoll 0, .getInstancePoll 1, .listNics (some "i-9"),
         .deleteFloatingIp "fip-a", .deleteFloatingIp "fip-b",
         .deleteInstance (some "i-9")]) ∧
    teardownCount (_wait_instance_running stDismantle svcDismantle
      (fun _ => "starting") 2).2.2 = 1 := by
  have h := (wait_timeout_rollback stDismantle svcDismantle (fun _ => "starting") 2
    [nicWithFips] rfl rfl (fun _ => rfl) rfl).1 (fun t _ => by decide)
  refine ⟨?_, h.2⟩
  rw [h.1]
  decide

/-! ## Claim C9: `ipAddress` is never cleared -/

theorem start_state (st : ClientState) (svc : Service) : (start st svc).2.1 = st := rfl

theorem stop_state (st : ClientState) (svc : Service) : (stop st svc).2.1 = st := by
  unfold stop
  by_cases h : st.config.delete_on_dismantle
  · simp only [h, if_true]
    rcases hdel : _delete_instance st svc with ⟨r, tr⟩
    cases r <;> simp
  · simp [h]

theorem is_ready_state (st : ClientState) (svc : Service) : (is_ready st svc).2.1 = st := by
  unfold is_ready
  rcases h : svc.get_instance st.instance_id with e | inst <;> simp

/-- Claim C9: once `ipAddress` is set (and the instance running), none
of `start`, `stop` with `delete_on_dismantle` unset, `is_ready` and
`_wait_instance_running` clears it: each leaves the handle's
`ip_address` — indeed the whole handle — unchanged. -/
theorem ip_address_preserved (st : ClientState) (svc : Service)
    (statuses : Nat → String) (timeout : Nat) (a : String)
    (hip : st.ip_address = some a)
    (hd : st.config.delete_on_dismantle = false) :
    (start st svc).2.1.ip_address = some a ∧
    (stop st svc).2.1.ip_address = some a ∧
    (is_ready st svc).2.1.ip_address = some a ∧
    (_wait_instance_running st svc statuses timeout).2.1.ip_address = some a := by
  refine ⟨?_, ?_, ?_, ?_⟩
  · rw [start_state]; exact hip
  · rw [stop_state]; exact hip
  · rw [is_ready_state]; exact hip
  · rw [_wait_instance_running, wait_go_state]; exact hip

def stRunning : ClientState :=
  { stDefault with instance_id := some "i-5", ip_address := some "52.0.0.7" }

/-- Witness for C9 on a concrete running handle. -/
theorem ip_address_preserved_witness :
    stRunning.ip_address = some "52.0.0.7" ∧
    (start stRunning svcDefault).2.1.ip_address = some "52.0.0.7" ∧
    (stop stRunning svcDefault).2.1.ip_address = some "52.0.0.7" ∧
    (is_ready stRunning svcDefault).2.1.ip_address = some "52.0.0.7" ∧
    (_wait_instance_running stRunning svcDefault (fun _ => "starting") 1).2.1.ip_address =
      some "52.0.0.7" :=
  ⟨rfl, ip_address_preserved stRunning svcDefault (fun _ => "starting") 1
    "52.0.0.7" rfl rfl⟩

/-! ## Helper lemmas about the phases of `create` -/

theorem sshPhase_trace (st : ClientState) (svc : Service) (tr : List Event) :
    (sshPhase st svc tr).2.2 = tr := by
  unfold sshPhase
  by_cases h : st.ssh_client
  · simp [h]
  · simp only [h]
    cases svc.ssh_connect <;> simp

theorem sshPhase_config (st : ClientState) (svc : Service) (tr : List Event) :
    (sshPhase st svc tr).2.1.config = st.config ∧
    (sshPhase st svc tr).2.1.instance_id = st.instance_id ∧
    (sshPhase st svc tr).2.1.ip_address = st.ip_address := by
  unfold sshPhase
  by_cases h : st.ssh_client
  · simp [h]
  · simp only [h]
    cases svc.ssh_connect <;> simp

theorem attachPhase_no_create (svc : Service) (inst : Instance) (fip : FloatingIp)
    (tr : List Event) (nm : String)
    (h : Event.createInstance nm ∉ tr) :
    Event.createInstance nm ∉
      (_create_and_attach_floating_ip.attachPhase svc inst fip tr).2 := by
  unfold _create_and_attach_floating_ip.attachPhase
  split
  · simpa using h
  · split
    · simpa using h
    · split <;> simp [h]

theorem fip_reconciler_no_create (st : ClientState) (svc : Service)
    (inst : Instance) (nm : String) :
    Event.createInstance nm ∉ (_create_and_attach_floating_ip st svc inst).2 := by
  unfold _create_and_attach_floating_ip
  split
  · simp
  · split
    · split
      · simp
      · exact attachPhase_no_create svc inst _ _ nm (by simp)
    · exact attachPhase_no_create svc inst _ _ nm (by simp)

theorem deleteFips_no_create (svc : Service) (l : List FloatingIp) (nm : String) :
    Event.createInstance nm ∉ (deleteFips svc l).2 := by
  induction l with
  | nil => simp [deleteFips]
  | cons f rest ih =>
    simp only [deleteFips]
    cases h : svc.delete_fip f.id with
    | error e => simp
    | ok u => simpa using ih

theorem delete_instance_no_create (st : ClientState) (svc : Service) (nm : String) :
    Event.createInstance nm ∉ (_delete_instance st svc).2 := by
  unfold _delete_instance
  split
  · simp
  · next nics heq =>
    split
    · next e tr hdel =>
      have htr : Event.createInstance nm ∉ tr := by
        have h2 := deleteFips_no_create svc (allFips nics) nm
        rw [hdel] at h2
        exact h2
      simpa using htr
    · next u tr hdel =>
      have htr : Event.createInstance nm ∉ tr := by
        have h2 := deleteFips_no_create svc (allFips nics) nm
        rw [hdel] at h2
        exact h2
      split <;> simp [htr]

theorem publicPhase_state (st : ClientState) (svc : Service) (inst? : Option Instance) :
    (publicPhase st svc inst?).2.1.instance_id = st.instance_id ∧
    (publicPhase st svc inst?).2.1.config.instance_id = st.config.instance_id ∧
    (publicPhase st svc inst?).2.1.config.rest = st.config.rest ∧
    (publicPhase st svc inst?).2.1.config.delete_on_dismantle =
      st.config.delete_on_dismantle := by
  unfold publicPhase
  split
  · split
    · split
      · simp
      · split
        · simp
        · next addr tr heq =>
          have h := sshPhase_config
            { st with
              config := { st.config with ip_address := some addr },
              ip_address := some addr } svc tr
          rw [h.1, h.2.1]
          simp
    · have h := sshPhase_config st svc []
      rw [h.1, h.2.1]
      simp
  · simp

theorem publicPhase_no_create (st : ClientState) (svc : Service)
    (inst? : Option Instance) (nm : String) :
    Event.createInstance nm ∉ (publicPhase st svc inst?).2.2 := by
  unfold publicPhase
  split
  · split
    · split
      · simp
      · next inst =>
        split
        · next e tr heq =>
          have h2 := fip_reconciler_no_create st svc inst nm
          rw [heq] at h2
          simpa using h2
        · next addr tr heq =>
          rw [sshPhase_trace]
          have h2 := fip_reconciler_no_create st svc inst nm
          rw [heq] at h2
          simpa using h2
    · rw [sshPhase_trace]
      simp
  · simp

/-- The `ip_address` bookkeeping of the public phase: starting with no
known address, either no address was assigned, or the shared
configuration holds exactly the assigned address. -/
theorem publicPhase_ip_none (st : ClientState) (svc : Service)
    (inst? : Option Instance) (hip : st.ip_address = none) :
    (publicPhase st svc inst?).2.1.ip_address = none ∨
    (publicPhase st svc inst?).2.1.config.ip_address =
      (publicPhase st svc inst?).2.1.ip_address := by
  unfold publicPhase
  split
  · split
    · split
      · left; simp [hip]
      · split
        · left; simp [hip]
        · next addr tr heq =>
          right
          have h := sshPhase_config
            { st with
              config := { st.config with ip_address := some addr },
              ip_address := some addr } svc tr
          rw [h.1, h.2.2]
    · next hcond =>
      rw [hip] at hcond
      simp at hcond
  · left; simp [hip]

/-- With an address already known, the public phase rewrites nothing:
both the handle's and the configuration's address fields survive. -/
theorem publicPhase_ip_some (st : ClientState) (svc : Service)
    (inst? : Option Instance) (b : String) (hip : st.ip_address = some b) :
    (publicPhase st svc inst?).2.1.ip_address = some b ∧
    (publicPhase st svc inst?).2.1.config.ip_address = st.config.ip_address := by
  unfold publicPhase
  split
  · split
    · next hcond =>
      rw [hip] at hcond
      simp at hcond
    · have h := sshPhase_config st svc []
      rw [h.1, h.2.2, hip]
      simp
  · simp [hip]

theorem createFinish_state (st : ClientState) (svc : Service)
    (inst? : Option Instance) (tr0 : List Event) :
    (createFinish st svc inst? tr0).2.1 = (publicPhase st svc inst?).2.1 := by
  unfold createFinish
  rcases hpp : publicPhase st svc inst? with ⟨r, st1, tr⟩
  cases r with
  | ok u => simp
  | error e =>
    dsimp only
    rcases hdel : _delete_instance st1 svc with ⟨r2, dtr⟩
    cases r2 <;> simp

/-- The result returned by `createFinish` on success is the pair
`(self.instance_id, self.ip_address)` read from the state left by the
public phase. -/
theorem createFinish_ok (st : ClientState) (svc : Service)
    (inst? : Option Instance) (tr0 : List Event)
    (p : Option String × Option String)
    (h : (createFinish st svc inst? tr0).1 = .ok p) :
    p = ((publicPhase st svc inst?).2.1.instance_id,
      (publicPhase st svc inst?).2.1.ip_address) := by
  unfold createFinish at h
  rcases hpp : publicPhase st svc inst? with ⟨r, st1, tr⟩
  rw [hpp] at h
  cases r with
  | ok u =>
    simp at h
    simp [← h]
  | error e =>
    dsimp only at h
    rcases hdel : _delete_instance st1 svc with ⟨r2, dtr⟩
    rw [hdel] at h
    cases r2 <;> simp at h

theorem createFinish_no_create (st : ClientState) (svc : Service)
    (inst? : Option Instance) (tr0 : List Event) (nm : String)
    (h0 : Event.createInstance nm ∉ tr0) :
    Event.createInstance nm ∉ (createFinish st svc inst? tr0).2.2 := by
  unfold createFinish
  rcases hpp : publicPhase st svc inst? with ⟨r, st1, tr⟩
  have htr : Event.createInstance nm ∉ tr := by
    have h2 := publicPhase_no_create st svc inst? nm
    rw [hpp] at h2
    exact h2
  cases r with
  | ok u => simp [h0, htr]
  | error e =>
    dsimp only
    rcases hdel : _delete_instance st1 svc with ⟨r2, dtr⟩
    have hdtr : Event.createInstance nm ∉ dtr := by
      have h2 := delete_instance_no_create st1 svc nm
      rw [hdel] at h2
      exact h2
    cases r2 <;> simp [h0, htr, hdtr]

theorem scanInstances_ne_nil (nm : String) (l : List Instance) (x : Instance)
    (h : scanInstances nm l = some x) : l ≠ [] := by
  intro hl
  subst hl
  simp [scanInstances] at h

/-- With `vsi_exists` already established, the provisioning phase is a
direct hand-off to the try-block. -/
theorem provisionPhase_adopted (st : ClientState) (svc : Service)
    (jk ci : Option String) (tok : String) (inst? : Option Instance)
    (tr0 : List Event) :
    provisionPhase st svc jk ci tok true inst? tr0 = createFinish st svc inst? tr0 := rfl

/-- A failing floating-IP listing aborts the reconciler at once. -/
theorem fip_list_error_eq (st : ClientState) (svc : Service) (inst : Instance)
    (e : Err) (hl : svc.list_floating_ips = .error e) :
    _create_and_attach_floating_ip st svc inst = (.error e, [.listFloatingIps]) := by
  unfold _create_and_attach_floating_ip
  rw [hl]

/-- The public phase when the floating-IP reconciler fails on its
listing. -/
theorem publicPhase_fip_error (st : ClientState) (svc : Service) (inst : Instance)
    (e : Err) (hp : st.public_vsi = true) (hip : st.ip_address = none)
    (hfp : _create_and_attach_floating_ip st svc inst = (.error e, [.listFloatingIps])) :
    publicPhase st svc (some inst) = (.error e, st, [.listFloatingIps]) := by
  unfold publicPhase
  simp [hp, hip, hfp]

/-- Evaluation of `create` with `check_if_vsi_exists` whose listing contains the
derived name: the scan adopts the (last) matching instance's id and the
flow continues with the try-block, no creation attempted. -/
theorem create_check_match_eq (st : ClientState) (svc : Service) (jk ci tok : String)
    (insts : List Instance) (inst0 : Instance)
    (hli : svc.list_instances = .ok insts)
    (hscan : scanInstances (_generate_name "instance" jk ci) insts = some inst0) :
    create st svc (some jk) (some ci) tok true =
      createFinish { st with instance_id := some inst0.id } svc insts.getLast?
        [.listInstances] := by
  unfold create
  dsimp only
  rw [hli]
  dsimp only
  simp only [_generate_name_full]
  rw [hscan]
  simp [provisionPhase_adopted]

/-- Core of C1: whenever the provider listing already holds the derived
name, `create` issues no `create_instance` call, adopts the matched id,
and returns it on success — for any starting handle state. -/
theorem create_adopts (st : ClientState) (svc : Service) (jk ci tok : String)
    (insts : List Instance) (inst0 : Instance)
    (hli : svc.list_instances = .ok insts)
    (hscan : scanInstances (_generate_name "instance" jk ci) insts = some inst0) :
    (∀ nm, Event.createInstance nm ∉ (create st svc (some jk) (some ci) tok true).2.2) ∧
    (create st svc (some jk) (some ci) tok true).2.1.instance_id = some inst0.id ∧
    (∀ p, (create st svc (some jk) (some ci) tok true).1 = .ok p →
      p.1 = some inst0.id) := by
  have hcr := create_check_match_eq st svc jk ci tok insts inst0 hli hscan
  refine ⟨?_, ?_, ?_⟩
  · intro nm
    rw [hcr]
    exact createFinish_no_create _ svc _ _ nm (by simp)
  · rw [hcr, createFinish_state]
    rw [(publicPhase_state _ svc _).1]
  · intro p hp
    rw [hcr] at hp
    have hshape := createFinish_ok _ svc _ _ p hp
    rw [hshape]
    dsimp only
    rw [(publicPhase_state _ svc _).1]

/-- Claim C1: against a provider whose listing already contains the
instance named as the naming scheme derives for `(jobKey, callId)`,
`create(jobKey, callId, check_if_vsi_exists=true)` adopts that
instance's id — returning it whenever the call succeeds — and issues no
`create_instance` call; a second successive call does the same, both
calls returning the same instance id. -/
theorem create_no_duplicate_provisioning (st : ClientState) (svc : Service)
    (jk ci tok : String) (insts : List Instance) (inst0 : Instance)
    (hli : svc.list_instances = .ok insts)
    (hscan : scanInstances (_generate_name "instance" jk ci) insts = some inst0) :
    (∀ nm, Event.createInstance nm ∉ (create st svc (some jk) (some ci) tok true).2.2) ∧
    (∀ p, (create st svc (some jk) (some ci) tok true).1 = .ok p →
      p.1 = some inst0.id) ∧
    (∀ nm, Event.createInstance nm ∉
      (create (create st svc (some jk) (some ci) tok true).2.1 svc
        (some jk) (some ci) tok true).2.2) ∧
    (∀ p q, (create st svc (some jk) (some ci) tok true).1 = .ok p →
      (create (create st svc (some jk) (some ci) tok true).2.1 svc
        (some jk) (some ci) tok true).1 = .ok q →
      p.1 = some inst0.id ∧ q.1 = some inst0.id ∧ p.1 = q.1) := by
  have h1 := create_adopts st svc jk ci tok insts inst0 hli hscan
  have h2 := create_adopts (create st svc (some jk) (some ci) tok true).2.1 svc
    jk ci tok insts inst0 hli hscan
  refine ⟨h1.1, h1.2.2, h2.1, ?_⟩
  intro p q hp hq
  refine ⟨h1.2.2 p hp, h2.2.2 q hq, ?_⟩
  rw [h1.2.2 p hp, h2.2.2 q hq]

def svcList : Service := { svcDefault with list_instances := .ok [instBound] }

/-- Witness for C1: a concrete adoption returns the listed instance's
id and the second call returns it again. -/
theorem create_no_duplicate_provisioning_witness :
    scanInstances (_generate_name "instance" "j1" "c1") [instBound] = some instBound ∧
    (create stDefault svcList (some "j1") (some "c1") "tok0" true).1 =
      .ok (some "i-1", none) ∧
    ((some "i-1", (none : Option String)) : Option String × Option String).1 =
      some instBound.id :=
  ⟨by decide, by decide,
   (create_no_duplicate_provisioning stDefault svcList "j1" "c1" "tok0" [instBound]
      instBound rfl (by decide)).2.1 (some "i-1", none) (by decide)⟩

/-! ## Claim C8: rollback when the try-block fails after an id is known -/

/-- Claim C8: once an instance id is known, a failure inside `create`'s
try-block (floating-IP reconciliation or later) triggers
`_delete_instance` — deleting attached floating IPs and the instance —
before the error is re-raised; this holds when the id was adopted by
the existence check (first part: the floating-IP listing fails) and
when it was pre-supplied (second part, where the try-block's failure is
the read of the never-assigned `instance` local, caught by the same
except clause). -/
theorem create_rollback_after_id_known (st : ClientState) (svc : Service) :
    (∀ jk ci tok insts inst0 e, svc.list_instances = .ok insts →
      scanInstances (_generate_name "instance" jk ci) insts = some inst0 →
      st.public_vsi = true → st.ip_address = none →
      svc.list_floating_ips = .error e →
      (_delete_instance { st with instance_id := some inst0.id } svc).1 = .ok () →
      create st svc (some jk) (some ci) tok true =
        (.error e, { st with instance_id := some inst0.id },
          [.listInstances, .listFloatingIps] ++
            (_delete_instance { st with instance_id := some inst0.id } svc).2)) ∧
    (∀ jk ci tok iid, st.instance_id = some iid →
      st.public_vsi = true → st.ip_address = none →
      (_delete_instance st svc).1 = .ok () →
      create st svc jk ci tok false =
        (.error .nameError, st, (_delete_instance st svc).2)) := by
  constructor
  · intro jk ci tok insts inst0 e hli hscan hp hip hlf hdel
    have hcr := create_check_match_eq st svc jk ci tok insts inst0 hli hscan
    obtain ⟨L, hL⟩ : ∃ L, insts.getLast? = some L := by
      have hne := scanInstances_ne_nil _ insts inst0 hscan
      cases hgl : insts.getLast? with
      | none => exact absurd (List.getLast?_eq_none_iff.mp hgl) hne
      | some L => exact ⟨L, rfl⟩
    have hfp := fip_list_error_eq { st with instance_id := some inst0.id } svc L e hlf
    have hpp := publicPhase_fip_error { st with instance_id := some inst0.id } svc L e
      hp hip hfp
    rw [hcr, hL]
    unfold createFinish
    rw [hpp]
    dsimp only
    rcases hdel2 : _delete_instance { st with instance_id := some inst0.id } svc
      with ⟨r2, dtr⟩
    rw [hdel2] at hdel
    cases r2 with
    | error e2 => exact absurd hdel (by simp)
    | ok u => simp
  · intro jk ci tok iid hpre hp hip hdel
    have hcr : create st svc jk ci tok false =
        createFinish st svc none [] := by
      unfold create
      dsimp only
      rw [hpre]
      rfl
    have hpp : publicPhase st svc none = (.error .nameError, st, []) := by
      unfold publicPhase
      simp [hp, hip]
    rw [hcr]
    unfold createFinish
    rw [hpp]
    dsimp only
    rcases hdel2 : _delete_instance st svc with ⟨r2, dtr⟩
    rw [hdel2] at hdel
    cases r2 with
    | error e2 => exact absurd hdel (by simp)
    | ok u => simp

def stPre : ClientState :=
  { stDefault with instance_id := some "i-3", public_vsi := true }

def svcDel : Service :=
  { svcDefault with list_nics := fun _ => .ok [], delete_instance := fun _ => .ok () }

/-- Witness for C8: on a concrete pre-supplied handle whose try-block
fails, `create` tears the instance down and re-raises. -/
theorem create_rollback_after_id_known_witness :
    stPre.public_vsi = true ∧
    create stPre svcDel none none "tok1" false =
      (.error .nameError, stPre, (_delete_instance stPre svcDel).2) :=
  ⟨rfl, (create_rollback_after_id_known stPre svcDel).2 none none "tok1" "i-3"
    rfl rfl rfl (by decide)⟩

/-! ## Claim C10: configuration write-back of `create` -/

/-- Claim C10 counterexample: a `create` that succeeds by adopting the
listed instance returns the discovered id `"i-1"` yet leaves
`config['instance_id']` unset — the write-back at source line 260 only
happens on the newly-created branch. -/
theorem create_config_not_written_on_adoption :
    (create stDefault svcList (some "j1") (some "c1") "tok2" true).1 =
      .ok (some "i-1", none) ∧
    (create stDefault svcList (some "j1") (some "c1") "tok2" true).2.1.config.instance_id
      = none := by
  decide

theorem createFinish_tr0_mem (st : ClientState) (svc : Service)
    (inst? : Option Instance) (tr0 : List Event) (x : Event) (hx : x ∈ tr0) :
    x ∈ (createFinish st svc inst? tr0).2.2 := by
  unfold createFinish
  rcases hpp : publicPhase st svc inst? with ⟨r, st1, tr⟩
  cases r with
  | ok u => simp [hx]
  | error e =>
    dsimp only
    rcases hdel : _delete_instance st1 svc with ⟨r2, dtr⟩
    cases r2 <;> simp [hx]

theorem execution_wrapper_count_pos (func : Nat → Except Err α) :
    1 ≤ (execution_wrapper func).2 :=
  ew_go_count_pos func 15 0 (by omega)

/-- The configuration fields other than `ip_address`, and the handle's
instance id, survive the try-block unchanged. -/
theorem createFinish_config (st : ClientState) (svc : Service)
    (inst? : Option Instance) (tr0 : List Event) :
    (createFinish st svc inst? tr0).2.1.config.rest = st.config.rest ∧
    (createFinish st svc inst? tr0).2.1.config.delete_on_dismantle =
      st.config.delete_on_dismantle ∧
    (createFinish st svc inst? tr0).2.1.config.instance_id = st.config.instance_id ∧
    (createFinish st svc inst? tr0).2.1.instance_id = st.instance_id := by
  have hst := createFinish_state st svc inst? tr0
  have hpp := publicPhase_state st svc inst?
  rw [hst]
  exact ⟨hpp.2.2.1, hpp.2.2.2, hpp.2.1, hpp.1⟩

/-- When no address was known and the try-block succeeds returning one,
that address was written into the configuration. -/
theorem createFinish_ip_none (st : ClientState) (svc : Service)
    (inst? : Option Instance) (tr0 : List Event) (hip : st.ip_address = none)
    (p : Option String × Option String) (a : String)
    (hok : (createFinish st svc inst? tr0).1 = .ok p) (hp2 : p.2 = some a) :
    (createFinish st svc inst? tr0).2.1.config.ip_address = some a := by
  have hshape := createFinish_ok st svc inst? tr0 p hok
  rw [hshape] at hp2
  dsimp only at hp2
  rcases publicPhase_ip_none st svc inst? hip with hnone | heq
  · rw [hnone] at hp2
    exact absurd hp2 (by simp)
  · rw [createFinish_state, heq, hp2]

/-- With an address already known, the configuration's address entry is
untouched by the try-block. -/
theorem createFinish_ip_some (st : ClientState) (svc : Service)
    (inst? : Option Instance) (tr0 : List Event) (b : String)
    (hip : st.ip_address = some b) :
    (createFinish st svc inst? tr0).2.1.config.ip_address = st.config.ip_address := by
  rw [createFinish_state]
  exact (publicPhase_ip_some st svc inst? b hip).2

/-- Configuration bookkeeping of the provisioning phase: `rest` and
`delete_on_dismantle` are never touched; `instance_id` is written back
exactly on the newly-created branch (the one that emits a
`createInstance` call); `ip_address` is written back exactly when an
address is obtained during this call. -/
theorem provisionPhase_config (st : ClientState) (svc : Service)
    (jk ci : Option String) (tok : String) (v : Bool) (inst? : Option Instance)
    (tr0 : List Event) (h0 : ∀ nm, Event.createInstance nm ∉ tr0) :
    ((provisionPhase st svc jk ci tok v inst? tr0).2.1.config.rest =
      st.config.rest) ∧
    ((provisionPhase st svc jk ci tok v inst? tr0).2.1.config.delete_on_dismantle =
      st.config.delete_on_dismantle) ∧
    ((∀ nm, Event.createInstance nm ∉ (provisionPhase st svc jk ci tok v inst? tr0).2.2) →
      (provisionPhase st svc jk ci tok v inst? tr0).2.1.config.instance_id =
        st.config.instance_id) ∧
    (∀ p, (provisionPhase st svc jk ci tok v inst? tr0).1 = .ok p →
      (∃ nm, Event.createInstance nm ∈ (provisionPhase st svc jk ci tok v inst? tr0).2.2) →
      (provisionPhase st svc jk ci tok v inst? tr0).2.1.config.instance_id =
        (provisionPhase st svc jk ci tok v inst? tr0).2.1.instance_id) ∧
    (∀ p a, st.ip_address = none →
      (provisionPhase st svc jk ci tok v inst? tr0).1 = .ok p → p.2 = some a →
      (provisionPhase st svc jk ci tok v inst? tr0).2.1.config.ip_address = some a) ∧
    (∀ b, st.ip_address = some b →
      (provisionPhase st svc jk ci tok v inst? tr0).2.1.config.ip_address =
        st.config.ip_address) := by
  cases v with
  | true =>
    rw [provisionPhase_adopted]
    refine ⟨(createFinish_config st svc inst? tr0).1,
      (createFinish_config st svc inst? tr0).2.1, ?_, ?_, ?_, ?_⟩
    · intro _
      exact (createFinish_config st svc inst? tr0).2.2.1
    · intro p _ hex
      obtain ⟨nm, hnm⟩ := hex
      exact absurd hnm (createFinish_no_create st svc inst? tr0 nm (h0 nm))
    · intro p a hip hok hp2
      exact createFinish_ip_none st svc inst? tr0 hip p a hok hp2
    · intro b hip
      exact createFinish_ip_some st svc inst? tr0 b hip
  | false =>
    unfold provisionPhase
    dsimp only
    rcases hew : execution_wrapper
      (fun _ => svc.create_instance (_generate_name_full "instance" jk ci tok))
      with ⟨r, n⟩
    have hn : 1 ≤ n := by
      have h2 := execution_wrapper_count_pos
        (fun _ => svc.create_instance (_generate_name_full "instance" jk ci tok))
      rw [hew] at h2
      exact h2
    cases r with
    | error e =>
      exact ⟨rfl, rfl, fun _ => rfl, fun p hp _ => absurd hp (by simp),
        fun p a _ hp _ => absurd hp (by simp), fun b _ => rfl⟩
    | ok o =>
      cases o with
      | none =>
        exact ⟨rfl, rfl, fun _ => rfl, fun p hp _ => absurd hp (by simp),
          fun p a _ hp _ => absurd hp (by simp), fun b _ => rfl⟩
      | some inst =>
        dsimp only
        refine ⟨?_, ?_, ?_, ?_, ?_, ?_⟩
        · exact (createFinish_config _ svc _ _).1
        · exact (createFinish_config _ svc _ _).2.1
        · intro hno
          exfalso
          apply hno (_generate_name_full "instance" jk ci tok)
          apply createFinish_tr0_mem
          apply List.mem_append_right
          exact List.mem_replicate.mpr ⟨by omega, rfl⟩
        · intro p _ _
          have hc := createFinish_config
            { st with
              instance_id := some inst.id,
              config := { st.config with instance_id := some inst.id } } svc (some inst)
            (tr0 ++ List.replicate n
              (Event.createInstance (_generate_name_full "instance" jk ci tok)))
          exact hc.2.2.1.trans hc.2.2.2.symm
        · intro p a hip hok hp2
          exact createFinish_ip_none
            { st with
              instance_id := some inst.id,
              config := { st.config with instance_id := some inst.id } } svc (some inst)
            (tr0 ++ List.replicate n
              (Event.createInstance (_generate_name_full "instance" jk ci tok)))
            hip p a hok hp2
        · intro b hip
          exact createFinish_ip_some
            { st with
              instance_id := some inst.id,
              config := { st.config with instance_id := some inst.id } } svc (some inst)
            (tr0 ++ List.replicate n
              (Event.createInstance (_generate_name_full "instance" jk ci tok)))
            b hip

/-- Claim C10 (amended): `create` leaves every configuration key other
than `instance_id` and `ip_address` untouched; `instance_id` is written
back exactly when the instance was newly created in this call (the run
that issued a `create_instance` call) — adoption via the existence
check and pre-supplied ids leave `config['instance_id']` unmodified —
and `ip_address` is written back exactly when a floating IP was
obtained during this call. -/
theorem create_config_writes (st : ClientState) (svc : Service)
    (jk ci : Option String) (tok : String) (check : Bool) :
    ((create st svc jk ci tok check).2.1.config.rest = st.config.rest) ∧
    ((create st svc jk ci tok check).2.1.config.delete_on_dismantle =
      st.config.delete_on_dismantle) ∧
    ((∀ nm, Event.createInstance nm ∉ (create st svc jk ci tok check).2.2) →
      (create st svc jk ci tok check).2.1.config.instance_id =
        st.config.instance_id) ∧
    (∀ p, (create st svc jk ci tok check).1 = .ok p →
      (∃ nm, Event.createInstance nm ∈ (create st svc jk ci tok check).2.2) →
      (create st svc jk ci tok check).2.1.config.instance_id =
        (create st svc jk ci tok check).2.1.instance_id) ∧
    (∀ p a, st.ip_address = none →
      (create st svc jk ci tok check).1 = .ok p → p.2 = some a →
      (create st svc jk ci tok check).2.1.config.ip_address = some a) ∧
    (∀ b, st.ip_address = some b →
      (create st svc jk ci tok check).2.1.config.ip_address =
        st.config.ip_address) := by
  cases check with
  | false => exact provisionPhase_config st svc jk ci tok _ none [] (by simp)
  | true =>
    unfold create
    dsimp only
    cases hli : svc.list_instances with
    | error e =>
      exact ⟨rfl, rfl, fun _ => rfl, fun p hp _ => absurd hp (by simp),
        fun p a _ hp _ => absurd hp (by simp), fun b _ => rfl⟩
    | ok insts =>
      dsimp only
      cases hscan : scanInstances (_generate_name_full "instance" jk ci tok) insts with
      | none =>
        exact provisionPhase_config st svc jk ci tok _ _ _ (by simp)
      | some m =>
        exact provisionPhase_config { st with instance_id := some m.id } svc jk ci tok
          _ _ _ (by simp)

def instNew : Instance :=
  { id := "i-7", name := "lithops-j2-c2-instance", status := "starting"
    primary_network_interface := nicBound, network_interfaces := [nicBound] }

def svcNew : Service :=
  { svcDefault with list_instances := .ok [], create_instance := fun _ => .ok instNew }

/-- Witness for the amended C10: a concrete newly-created instance has
its id written back into the configuration. -/
theorem create_config_writes_witness :
    (create stDefault svcNew (some "j2") (some "c2") "tok3" true).1 =
      .ok (some "i-7", none) ∧
    (create stDefault svcNew (some "j2") (some "c2") "tok3" true).2.1.config.instance_id =
      (create stDefault svcNew (some "j2") (some "c2") "tok3" true).2.1.instance_id :=
  ⟨by decide,
   (create_config_writes stDefault svcNew (some "j2") (some "c2") "tok3" true).2.2.2.1
     (some "i-7", none) (by decide)
     ⟨"lithops-j2-c2-instance", by decide⟩⟩

end IbmVpc
